import Mathlib

/-!
Shallow embedding of the error model and HTTP boundary responder of
go-mod-core-contracts (src/models/errors.go, both the `models` part and the
`http` part of that file).

Go `error` values form chains via `Unwrap`.  We model an error value as a
`GoError`: either a `CommonEdgexError` node (constructor `common`, carrying
the unexported `op` field, the exported `Kind` and `Message` fields and the
unexported nested `err`), or a generic non-structured Go error
(constructor `plain`, carrying its `Error()` message and an optional
wrapped error, as produced e.g. by `fmt.Errorf` with `%w`).
Go's `nil` error inside a chain is `Option.none`.
-/

/-- Go: `type Code string` — a categorical identifier for the error type. -/
abbrev Code := String

/-- Go: `KindUnknown Code = "Unknown"`. -/
def KindUnknown : Code := "Unknown"

/-- Go: `KindDatabaseError Code = "Database"`. -/
def KindDatabaseError : Code := "Database"

/-- Go: `KindCommunicationError Code = "Communication"`. -/
def KindCommunicationError : Code := "Communication"

/-- Go: `KindEntityDoesNotExistError Code = "NotFound"`. -/
def KindEntityDoesNotExistError : Code := "NotFound"

/-- Go: `KindEntityStateError Code = "InvalidState"`. -/
def KindEntityStateError : Code := "InvalidState"

/-- Go: `KindServerError Code = "Unknown/Unexpected"`. -/
def KindServerError : Code := "Unknown/Unexpected"

/-- Go: `KindLimitExceeded Code = "LimitExceeded"`. -/
def KindLimitExceeded : Code := "LimitExceeded"

/-- A Go error value: either a `CommonEdgexError` (fields `op`, `Kind`,
`Message`, nested `err`), or any other (non-structured) error, carrying its
`Error()` string and, when it supports `Unwrap`, its wrapped error. -/
inductive GoError where
  | common (op : String) (kind : Code) (message : String) (err : Option GoError)
  | plain (msg : String) (wrapped : Option GoError)

/-- Go struct `CommonEdgexError` (file src/models/errors.go): `op` and `err`
are unexported, `Kind` and `Message` are exported with json tags `kind` and
`message`. -/
structure CommonEdgexError where
  op : String
  Kind : Code
  Message : String
  err : Option GoError

/-- View a `CommonEdgexError` value as a Go `error` (it implements `Error()`). -/
def CommonEdgexError.toGoError (ce : CommonEdgexError) : GoError :=
  .common ce.op ce.Kind ce.Message ce.err

/-- The Go zero value of `CommonEdgexError`
(`var ce models.CommonEdgexError` before any assignment). -/
def zeroCommonEdgexError : CommonEdgexError :=
  { op := "", Kind := "", Message := "", err := none }

/-- Semantics of `errors.As(err, &ce)` for target type `CommonEdgexError`:
walk the chain from the outside in, succeeding at the first
`CommonEdgexError` node, stepping through other errors via their `Unwrap`
and failing when the chain ends.  Returns the matched value. -/
def findCommon : GoError → Option CommonEdgexError
  | .common op k m e => some { op := op, Kind := k, Message := m, err := e }
  | .plain _ none => none
  | .plain _ (some e) => findCommon e

/-- Go `func Kind(err error) Code` (src/models/errors.go lines 76-83):
`errors.As` into a `CommonEdgexError`; `KindUnknown` when that fails,
otherwise the matched value's `Kind` field. -/
def Kind (err : GoError) : Code :=
  match findCommon err with
  | none => KindUnknown
  | some e => e.Kind

/-- Go `func (ce CommonEdgexError) Error() string` together with the
`Error()` of non-structured errors (a plain error's `Error()` is its
message; its wrapped error does not contribute). -/
def GoError.errorString : GoError → String
  | .common _ _ m none => m
  | .common op _ m (some e) => op ++ " " ++ m ++ ": " ++ e.errorString
  | .plain msg _ => msg

/-- Go `func (ce CommonEdgexError) Unwrap() error`. -/
def CommonEdgexError.Unwrap (ce : CommonEdgexError) : Option GoError :=
  ce.err

/-- Go `func NewCommonEdgexError(kind Code, message string, wrappedError
error) CommonEdgexError`.  The source fills `op` with
`addCallerInformation()`, a string produced by runtime stack introspection;
we model that provenance string as the explicit `callerInfo` parameter. -/
def NewCommonEdgexError (callerInfo : String) (kind : Code) (message : String)
    (wrappedError : Option GoError) : CommonEdgexError :=
  { Kind := kind, op := callerInfo, Message := message, err := wrappedError }

/-! ### Chain view used to state claims about `Kind`

`chain e` is the list of error values met by unwrapping one layer at a
time starting at `e` (outermost first). -/

/-- Go `Unwrap` step of the chain walk done by `errors.As`:
a `CommonEdgexError`'s `Unwrap` returns its nested `err`; a plain error
yields its wrapped error when it has one. -/
def GoError.unwrapOne : GoError → Option GoError
  | .common _ _ _ e => e
  | .plain _ w => w

/-- The full unwrap chain of an error, outermost first. -/
def chain : GoError → List GoError
  | .common op k m none => [.common op k m none]
  | .common op k m (some e) => .common op k m (some e) :: chain e
  | .plain msg none => [.plain msg none]
  | .plain msg (some e) => .plain msg (some e) :: chain e

/-- Whether an error value is itself a `CommonEdgexError` node. -/
def GoError.isCommon : GoError → Bool
  | .common _ _ _ _ => true
  | .plain _ _ => false

/-- The `Kind` field of a `common` node (`KindUnknown` on a plain node;
only applied to nodes known to be `common`). -/
def GoError.kindOf : GoError → Code
  | .common _ k _ _ => k
  | .plain _ _ => KindUnknown

/-- Spec-side definition of classification, written from the claim's words:
scan the unwrap chain outward-to-inward, take the first
`CommonEdgexError` found (shallowest match wins, never scanning past the
first match) and return its `Kind`; `KindUnknown` when no node of the chain
is a `CommonEdgexError`. -/
def kindSpec (e : GoError) : Code :=
  match (chain e).find? GoError.isCommon with
  | some c => c.kindOf
  | none => KindUnknown

theorem chain_cons_common (op : String) (k : Code) (m : String) (e : GoError) :
    chain (.common op k m (some e)) = .common op k m (some e) :: chain e := by
  simp [chain]

theorem chain_cons_plain (msg : String) (e : GoError) :
    chain (.plain msg (some e)) = .plain msg (some e) :: chain e := by
  simp [chain]

/-- C3: `Kind` returns the `Kind` field of the shallowest (outermost)
`CommonEdgexError` reachable by unwrapping one layer at a time — traversing
transparently through non-structured wrapper layers and never scanning past
the first match — and returns `KindUnknown` when no `CommonEdgexError`
occurs anywhere in the chain.  Formally, the source's `Kind` (built on
`errors.As`) coincides with `kindSpec`, the outward-to-inward
first-match scan over the unwrap chain. -/
theorem Kind_eq_kindSpec : ∀ e : GoError, Kind e = kindSpec e
  | .common op k m none => by
      simp [Kind, findCommon, kindSpec, chain, List.find?, GoError.isCommon, GoError.kindOf]
  | .common op k m (some e2) => by
      simp [Kind, findCommon, kindSpec, chain, List.find?, GoError.isCommon, GoError.kindOf]
  | .plain msg none => by
      simp [Kind, findCommon, kindSpec, chain, List.find?, GoError.isCommon]
  | .plain msg (some e2) => by
      have ih := Kind_eq_kindSpec e2
      have h : Kind (.plain msg (some e2)) = Kind e2 := by
        simp [Kind, findCommon]
      rw [h, ih]
      simp [kindSpec, chain_cons_plain, List.find?, GoError.isCommon]

/-! ### Error message formatting (claim C4) -/

/-- Build a nest of `CommonEdgexError` layers around an inner error:
each list element supplies one layer's `(op, Kind, Message)`, outermost
first, and the innermost layer wraps `inner`. -/
def nestCommons : List (String × Code × String) → GoError → GoError
  | [], inner => inner
  | (op, k, m) :: rest, inner => .common op k m (some (nestCommons rest inner))

/-- Spec-side rendering of a nest of layers: each layer contributes
`op ++ " " ++ message ++ ": "` and the base string closes the chain —
the layers' messages appear in outer-to-inner order joined by `": "`. -/
def describeLayers : List (String × Code × String) → String → String
  | [], base => base
  | (op, _, m) :: rest, base => op ++ " " ++ m ++ ": " ++ describeLayers rest base

theorem errorString_nestCommons (layers : List (String × Code × String)) (inner : GoError) :
    (nestCommons layers inner).errorString = describeLayers layers inner.errorString := by
  induction layers with
  | nil => simp [nestCommons, describeLayers]
  | cons hd tl ih =>
      obtain ⟨op, k, m⟩ := hd
      simp [nestCommons, describeLayers, GoError.errorString, ih]

/-- C4: `CommonEdgexError.Error()` returns `Message` verbatim when the
nested error is nil, and otherwise returns
`op ++ " " ++ Message ++ ": " ++ (nested error).Error()`, applied
recursively down the chain, so each layer's message appears in
outer-to-inner order joined by `": "` (third conjunct, over an arbitrary
nest of layers). -/
theorem commonEdgexError_error_format :
    (∀ op k m, (GoError.common op k m none).errorString = m) ∧
    (∀ op k m c, (GoError.common op k m (some c)).errorString =
      op ++ " " ++ m ++ ": " ++ c.errorString) ∧
    (∀ layers inner, (nestCommons layers inner).errorString =
      describeLayers layers inner.errorString) :=
  ⟨fun _ _ _ => rfl, fun _ _ _ _ => rfl, errorString_nestCommons⟩

/-! ### The Kind constants (claim C9) -/

/-- C9 counterexample: the claim states the ServerError category constant
has the identifier value "ServerError"; in the source `KindServerError` is
the string "Unknown/Unexpected". -/
theorem kindServerError_not_serverError : ¬ (KindServerError = "ServerError") := by
  decide

/-- C9 (amended): the seven Kind constants are pairwise-distinct string
identifiers with values "Unknown", "Database", "Communication", "NotFound",
"InvalidState", "Unknown/Unexpected" (for `KindServerError`) and
"LimitExceeded". -/
theorem kind_constants_values :
    KindUnknown = "Unknown" ∧
    KindDatabaseError = "Database" ∧
    KindCommunicationError = "Communication" ∧
    KindEntityDoesNotExistError = "NotFound" ∧
    KindEntityStateError = "InvalidState" ∧
    KindServerError = "Unknown/Unexpected" ∧
    KindLimitExceeded = "LimitExceeded" ∧
    List.Nodup [KindUnknown, KindDatabaseError, KindCommunicationError,
      KindEntityDoesNotExistError, KindEntityStateError, KindServerError,
      KindLimitExceeded] := by
  refine ⟨rfl, rfl, rfl, rfl, rfl, rfl, rfl, ?_⟩
  decide

/-! ### Constructor round-trip (claim C10) -/

/-- C10: `NewCommonEdgexError kind message wrapped` stores its arguments
verbatim — `Unwrap` returns the wrapped error, the `Kind` and `Message`
fields hold the given kind and message, and `Kind` (chain classification)
on the result returns the given kind, for any `Code` value whatsoever
(no validation or rewriting), and for any captured caller information. -/
theorem newCommonEdgexError_roundtrip :
    ∀ (ci : String) (k : Code) (m : String) (c : Option GoError),
      (NewCommonEdgexError ci k m c).Unwrap = c ∧
      (NewCommonEdgexError ci k m c).Kind = k ∧
      (NewCommonEdgexError ci k m c).Message = m ∧
      Kind (NewCommonEdgexError ci k m c).toGoError = k :=
  fun _ _ _ _ => ⟨rfl, rfl, rfl, rfl⟩

/-! ### HTTP boundary responder (the `http` part of src/models/errors.go)

The `http.ResponseWriter` is modelled as the trace of calls made to it:
`writeHeader s` for `w.WriteHeader(s)` and `write b` for `w.Write(b)`
(bodies are byte slices, modelled as strings).  The caller-supplied
`decoder func(interface{}) ([]byte, error)` is applied once to the raw
error and once to a `CommonEdgexError` value, so its argument is a sum of
the two; its Go result pair `([]byte, error)` is `String × Option String`
(the returned bytes together with the encoding error when there is one). -/

/-- The value handed to the caller-supplied decoder: the raw error `e`, or
the `CommonEdgexError` `ce` extracted from the chain. -/
inductive DecArg where
  | raw (e : GoError)
  | structured (ce : CommonEdgexError)

/-- One observable call on the `http.ResponseWriter`. -/
inductive HttpEvent where
  | writeHeader (status : Nat)
  | write (body : String)
deriving DecidableEq

/-- Whether an event is a `WriteHeader` (status line) call. -/
def HttpEvent.isHeaderWrite : HttpEvent → Bool
  | .writeHeader _ => true
  | .write _ => false

/-- Go `var ResponseMap = map[models.Code]int{...}`: the fixed
Kind-to-status table, modelled as an association list (the Go map literal
has pairwise-distinct keys, so lookup order is immaterial). -/
def ResponseMap : List (Code × Nat) :=
  [(KindUnknown, 500),
   (KindDatabaseError, 500),
   (KindServerError, 500),
   (KindCommunicationError, 500),
   (KindEntityDoesNotExistError, 404),
   (KindEntityStateError, 409),
   (KindLimitExceeded, 413)]

/-- The tail of `ToHttpResponse` (src lines 200-209): look up
`ResponseMap[models.Kind(ce)]` (a missing key yields Go's zero value `0`,
the `ok` flag is not checked by the source), decode `ce`, write the status
header, then write the decoded bytes, or the fixed fallback
"Unable to process error" when decoding failed. -/
def respondCommon (ce : CommonEdgexError) (decoder : DecArg → String × Option String) :
    List HttpEvent :=
  let statusCode := (ResponseMap.lookup (Kind ce.toGoError)).getD 0
  let r := decoder (.structured ce)
  match r.2 with
  | some _ => [.writeHeader statusCode, .write "Unable to process error"]
  | none => [.writeHeader statusCode, .write r.1]

/-- Go `func ToHttpResponse(e error, w http.ResponseWriter, decoder
func(interface{}) ([]byte, error))` (src lines 180-210), faithfully
including its control flow: when `errors.As` fails, the source writes
status 500 and then, if the decoder returned an error, writes the decoder's
returned bytes and returns; if the decoder succeeded it writes the literal
"Unknown error" and — lacking a `return` — falls through to the
structured-error tail with `ce` still the zero value. -/
def ToHttpResponse (e : GoError) (decoder : DecArg → String × Option String) :
    List HttpEvent :=
  match findCommon e with
  | none =>
      let r := decoder (.raw e)
      match r.2 with
      | some _ => [.writeHeader 500, .write r.1]
      | none =>
          [.writeHeader 500, .write "Unknown error"] ++
            respondCommon zeroCommonEdgexError decoder
  | some ce => respondCommon ce decoder

/-- C6: `ResponseMap` has exactly one entry per Kind constant and no
others: its keys are exactly the seven constants (pairwise distinct), and
it maps Unknown, Database, ServerError and Communication to 500, NotFound
to 404, InvalidState to 409 and LimitExceeded to 413. -/
theorem responseMap_exhaustive :
    ResponseMap.map Prod.fst =
      [KindUnknown, KindDatabaseError, KindServerError, KindCommunicationError,
       KindEntityDoesNotExistError, KindEntityStateError, KindLimitExceeded] ∧
    (ResponseMap.map Prod.fst).Nodup ∧
    ResponseMap.lookup KindUnknown = some 500 ∧
    ResponseMap.lookup KindDatabaseError = some 500 ∧
    ResponseMap.lookup KindServerError = some 500 ∧
    ResponseMap.lookup KindCommunicationError = some 500 ∧
    ResponseMap.lookup KindEntityDoesNotExistError = some 404 ∧
    ResponseMap.lookup KindEntityStateError = some 409 ∧
    ResponseMap.lookup KindLimitExceeded = some 413 := by
  refine ⟨rfl, by decide, ?_, ?_, ?_, ?_, ?_, ?_, ?_⟩ <;> rfl

/-- C5: when the error chain contains a `CommonEdgexError`, `ToHttpResponse`
writes the status the mapping table assigns to its Kind and then the
decoder's output as the body, or the fixed body "Unable to process error"
when the decoder fails. -/
theorem toHttpResponse_structured (e : GoError) (ce : CommonEdgexError)
    (decoder : DecArg → String × Option String) (status : Nat)
    (hfind : findCommon e = some ce)
    (hmap : ResponseMap.lookup ce.Kind = some status) :
    ToHttpResponse e decoder =
      [.writeHeader status,
       .write (match (decoder (.structured ce)).2 with
               | some _ => "Unable to process error"
               | none => (decoder (.structured ce)).1)] := by
  have hkind : Kind ce.toGoError = ce.Kind := rfl
  simp only [ToHttpResponse, hfind, respondCommon, hkind, hmap, Option.getD_some]
  cases h2 : (decoder (.structured ce)).2 <;> simp

/-- C5 witness: a `CommonEdgexError` of Kind `KindLimitExceeded` with a
succeeding decoder yields exactly status 413 and the decoder's bytes. -/
theorem toHttpResponse_structured_witness :
    ToHttpResponse (.common "op" KindLimitExceeded "too large" none)
        (fun _ => ("BODY", none)) =
      [.writeHeader 413, .write "BODY"] :=
  toHttpResponse_structured (.common "op" KindLimitExceeded "too large" none)
    { op := "op", Kind := KindLimitExceeded, Message := "too large", err := none }
    (fun _ => ("BODY", none)) 413 rfl rfl

/-- A decoder that always succeeds, returning the fixed bytes "ENCODED". -/
def alwaysOkDecoder : DecArg → String × Option String :=
  fun _ => ("ENCODED", none)

/-- A decoder that always fails; like Go's `json.Marshal` on failure it
returns nil bytes (the empty byte slice) together with an error. -/
def alwaysFailDecoder : DecArg → String × Option String :=
  fun _ => ("", some "encode failed")

/-- A plain, non-structured error with no wrapped cause. -/
def plainBoom : GoError := .plain "boom" none

/-- C1 evaluation (code bug): on a plain error the source's encode branch
is inverted and the success branch lacks a `return`.  With a succeeding
decoder it writes "Unknown error" instead of the encoded bytes and then
falls through (second header with status 0, second body); with a failing
decoder it writes the decoder's nil bytes instead of the "Unknown error"
fallback.  Neither trace is the one the claim requires. -/
theorem toHttpResponse_plain_eval :
    ToHttpResponse plainBoom alwaysOkDecoder =
      [.writeHeader 500, .write "Unknown error", .writeHeader 0, .write "ENCODED"] ∧
    ToHttpResponse plainBoom alwaysOkDecoder ≠
      [.writeHeader 500, .write "ENCODED"] ∧
    ToHttpResponse plainBoom alwaysFailDecoder = [.writeHeader 500, .write ""] ∧
    ToHttpResponse plainBoom alwaysFailDecoder ≠
      [.writeHeader 500, .write "Unknown error"] := by
  refine ⟨rfl, by decide, rfl, by decide⟩

/-- C2 evaluation (code bug): a single call can write the status line
twice — on a plain error with a succeeding decoder the trace contains two
`WriteHeader` calls (and two bodies), because the success branch of the
non-structured case falls through into the structured-error tail. -/
theorem toHttpResponse_double_header :
    (ToHttpResponse plainBoom alwaysOkDecoder).countP
      (fun ev => HttpEvent.isHeaderWrite ev) = 2 := by
  decide

/-! ### Remote client error decoding (the `FromServiceClientError` part)

The source calls `strings.Split(esc.Error(), "-")` and
`json.Unmarshal([]byte(body[1]), &e)`.  `strings.Split` with the one-byte
separator "-" is modelled on character lists; `json.Unmarshal` into
`CommonEdgexError` (whose json-visible fields are `kind` and `message`,
both strings; `op` and `err` are unexported and untouched, so the result
starts from the Go zero value) is modelled by a recursive-descent JSON
reader: a top-level object whose members are matched case-insensitively to
the `kind`/`message` tags (last occurrence wins, unknown members are
skipped), with strings supporting the single-character escapes
(`\u` escapes and a few exotic number forms accepted by Go are left out;
every input below stays inside the modelled fragment).  Any input that is
not a JSON object, or has trailing data, yields an error, as
`json.Unmarshal` does. -/

/-- Skip JSON whitespace. -/
def skipWs : List Char → List Char
  | c :: rest =>
      if c = ' ' ∨ c = '\t' ∨ c = '\n' ∨ c = '\r' then skipWs rest else c :: rest
  | [] => []

/-- The single-character JSON escapes paired with the characters they
denote (quote, backslash, slash, then n/t/r/b/f by code point). -/
def jsonEscapePairs : List (Char × Char) :=
  [('"', '"'), ('\\', '\\'), ('/', '/'),
   ('n', Char.ofNat 10), ('t', Char.ofNat 9), ('r', Char.ofNat 13),
   ('b', Char.ofNat 8), ('f', Char.ofNat 12)]

/-- The character denoted by a single-character JSON escape. -/
def escChar (c : Char) : Option Char :=
  jsonEscapePairs.lookup c

/-- Read the remainder of a JSON string (the opening quote already
consumed): the decoded characters and the input after the closing quote. -/
def parseStrChars : List Char → Option (List Char × List Char)
  | [] => none
  | '"' :: tl => some ([], tl)
  | '\\' :: esc :: tl =>
      (escChar esc).bind fun decoded =>
        (parseStrChars tl).map fun res => (decoded :: res.1, res.2)
  | other :: tl =>
      (parseStrChars tl).map fun res => (other :: res.1, res.2)

/-- Strip a fixed literal (given as its character list) from the front of
the input. -/
def dropLit : List Char → List Char → Option (List Char)
  | [], cs => some cs
  | t :: ts, c :: cs => if c = t then dropLit ts cs else none
  | _ :: _, [] => none

/-- Characters that may occur in a JSON number literal. -/
def isNumChar (c : Char) : Bool :=
  c.isDigit || c = '-' || c = '+' || c = '.' || c = 'e' || c = 'E'

/-- Consume a run of number characters. -/
def skipNum : List Char → List Char
  | c :: rest => if isNumChar c then skipNum rest else c :: rest
  | [] => []

mutual

/-- Skip one JSON value (used for object members that do not correspond to
a `CommonEdgexError` field).  Fuel bounds the nesting; callers pass more
fuel than the input length, so it never runs out on a real input. -/
def jsonSkipValue : Nat → List Char → Option (List Char)
  | 0, _ => none
  | fuel + 1, cs =>
      match skipWs cs with
      | [] => none
      | '"' :: rest => (parseStrChars rest).map Prod.snd
      | '\x7b' :: rest =>
          (match skipWs rest with
           | '\x7d' :: r2 => some r2
           | _ => jsonSkipMembers fuel rest)
      | '[' :: rest =>
          (match skipWs rest with
           | ']' :: r2 => some r2
           | _ => jsonSkipElements fuel rest)
      | c :: rest =>
          if c = '-' ∨ c.isDigit then some (skipNum (c :: rest))
          else if c = 't' then dropLit ("rue".toList) rest
          else if c = 'f' then dropLit ("alse".toList) rest
          else if c = 'n' then dropLit ("ull".toList) rest
          else none

/-- Skip the members of a JSON object up to and including its closing
brace. -/
def jsonSkipMembers : Nat → List Char → Option (List Char)
  | 0, _ => none
  | fuel + 1, cs =>
      match skipWs cs with
      | '"' :: rest =>
          (match parseStrChars rest with
           | none => none
           | some (_, r1) =>
              match skipWs r1 with
              | ':' :: r2 =>
                  (match jsonSkipValue fuel r2 with
                   | none => none
                   | some r3 =>
                      match skipWs r3 with
                      | ',' :: r4 => jsonSkipMembers fuel r4
                      | '\x7d' :: r4 => some r4
                      | _ => none)
              | _ => none)
      | _ => none

/-- Skip the elements of a JSON array up to and including its closing
bracket. -/
def jsonSkipElements : Nat → List Char → Option (List Char)
  | 0, _ => none
  | fuel + 1, cs =>
      match jsonSkipValue fuel cs with
      | none => none
      | some r1 =>
          match skipWs r1 with
          | ',' :: r2 => jsonSkipElements fuel r2
          | ']' :: r2 => some r2
          | _ => none

end

/-- Go's `encoding/json` field matching: the member key is matched to a
struct tag case-insensitively. -/
def keyMatches (key : List Char) (tag : List Char) : Bool :=
  key.map Char.toLower == tag

/-- Assign one decoded object member to the `CommonEdgexError` under
construction: keys matching tag `kind` set `Kind`, keys matching
`message` set `Message`, anything else is ignored. -/
def setCEField (acc : CommonEdgexError) (key : List Char) (val : String) :
    CommonEdgexError :=
  if keyMatches key ("kind".toList) then { acc with Kind := val }
  else if keyMatches key ("message".toList) then { acc with Message := val }
  else acc

/-- Read the members of the top-level object into a `CommonEdgexError`,
starting just after the opening brace (at least one member present);
returns the value and the input after the closing brace. -/
def parseCEMembers : Nat → List Char → CommonEdgexError →
    Except String (CommonEdgexError × List Char)
  | 0, _, _ => .error "json: object too deep"
  | fuel + 1, cs, acc =>
      match skipWs cs with
      | '"' :: rest =>
          (match parseStrChars rest with
           | none => .error "json: unterminated string"
           | some (key, r1) =>
              match skipWs r1 with
              | ':' :: r2 =>
                  (match skipWs r2 with
                   | '"' :: r3 =>
                      (match parseStrChars r3 with
                       | none => .error "json: unterminated string"
                       | some (val, r4) =>
                          let acc2 := setCEField acc key (String.mk val)
                          match skipWs r4 with
                          | ',' :: r5 => parseCEMembers fuel r5 acc2
                          | '\x7d' :: r5 => .ok (acc2, r5)
                          | _ => .error "json: expected comma or closing brace")
                   | other =>
                      if keyMatches key ("kind".toList) ∨
                          keyMatches key ("message".toList) then
                        .error "json: cannot unmarshal value into field of string type"
                      else
                        match jsonSkipValue (fuel + 1) other with
                        | none => .error "json: invalid value"
                        | some r4 =>
                            match skipWs r4 with
                            | ',' :: r5 => parseCEMembers fuel r5 acc
                            | '\x7d' :: r5 => .ok (acc, r5)
                            | _ => .error "json: expected comma or closing brace")
              | _ => .error "json: expected colon after object key"
          )
      | _ => .error "json: expected object key"

/-- Model of `json.Unmarshal([]byte(s), &e)` for
`e : CommonEdgexError`: the input must be one JSON object (with optional
surrounding whitespace and nothing after it); its `kind`/`message` members
populate the corresponding fields of the Go zero value. -/
def unmarshalCommonEdgexError (s : String) : Except String CommonEdgexError :=
  match skipWs s.toList with
  | '\x7b' :: rest =>
      (match skipWs rest with
       | '\x7d' :: tail =>
          if (skipWs tail).isEmpty then .ok zeroCommonEdgexError
          else .error "json: trailing characters"
       | _ =>
          match parseCEMembers (rest.length + 1) rest zeroCommonEdgexError with
          | .error e => .error e
          | .ok (ce, tail) =>
              if (skipWs tail).isEmpty then .ok ce
              else .error "json: trailing characters")
  | _ => .error "json: cannot unmarshal value into CommonEdgexError"

/-- Go `strings.Split(s, "-")` on character lists: cut around every
occurrence of the separator; the result always has at least one (possibly
empty) segment. -/
def splitDash : List Char → List (List Char)
  | [] => [[]]
  | '-' :: rest => [] :: splitDash rest
  | c :: rest =>
      match splitDash rest with
      | [] => [[c]]
      | g :: gs => (c :: g) :: gs

/-- Go `strings.Split(s, "-")`. -/
def goSplitDash (s : String) : List String :=
  (splitDash s.toList).map String.mk

/-- Go `func FromServiceClientError(esc *types.ErrServiceClient)
models.EdgexError` (src lines 220-230), taking the client error's
`Error()` string as input.  The source indexes `body[1]` without checking
the segment count; `none` models the runtime panic (index out of range)
raised when the input has no "-" delimiter.  On a deserialization error it
returns `NewCommonEdgexError(KindServerError, "Client error", err)` with
the failure as the wrapped cause. -/
def FromServiceClientError (callerInfo : String) (clientErrString : String) :
    Option GoError :=
  let body := goSplitDash clientErrString
  match body.get? 1 with
  | none => none
  | some seg =>
      match unmarshalCommonEdgexError seg with
      | .error errMsg =>
          some (NewCommonEdgexError callerInfo KindServerError "Client error"
            (some (.plain errMsg none))).toGoError
      | .ok e => some e.toGoError

/-- C7 evaluation (code bug): on an input with no "-" delimiter the split
yields a single segment, and the source's unchecked `body[1]` access is out
of bounds — modelled by the `none` (panic) result — instead of failing
with a distinct, named error as the claim requires. -/
theorem fromServiceClientError_no_delimiter :
    (goSplitDash "no delimiter here").length = 1 ∧
    (goSplitDash "no delimiter here").get? 1 = none ∧
    FromServiceClientError "op" "no delimiter here" = none :=
  ⟨rfl, rfl, rfl⟩

/-- C8: `FromServiceClientError` splits the client error string on "-",
takes the second segment and JSON-decodes it into a `CommonEdgexError` —
on the input `"svc-\x7b\"kind\":\"NotFound\",\"message\":\"missing\"\x7d"`
this yields the structured error with Kind `NotFound` and Message
"missing" (first conjunct) — returning the decoded value on success
(second conjunct) and, when deserialization fails, a newly constructed
`CommonEdgexError` with Kind `KindServerError`, Message "Client error" and
the deserialization failure as its wrapped cause (third conjunct). -/
theorem fromServiceClientError_decode :
    (∀ ci, FromServiceClientError ci
        "svc-\x7b\"kind\":\"NotFound\",\"message\":\"missing\"\x7d" =
      some (.common "" KindEntityDoesNotExistError "missing" none)) ∧
    (∀ ci s seg ce, (goSplitDash s).get? 1 = some seg →
      unmarshalCommonEdgexError seg = .ok ce →
      FromServiceClientError ci s = some ce.toGoError) ∧
    (∀ ci s seg msg, (goSplitDash s).get? 1 = some seg →
      unmarshalCommonEdgexError seg = .error msg →
      FromServiceClientError ci s =
        some (NewCommonEdgexError ci KindServerError "Client error"
          (some (.plain msg none))).toGoError) := by
  refine ⟨fun ci => rfl, ?_, ?_⟩
  · intro ci s seg ce h1 h2
    rw [List.get?_eq_getElem?] at h1
    simp [FromServiceClientError, h1, h2]
  · intro ci s seg msg h1 h2
    rw [List.get?_eq_getElem?] at h1
    simp [FromServiceClientError, h1, h2]

/-- C8 witness: instantiating the decode theorem at concrete inputs — a
decodable second segment (the empty object) and an undecodable one. -/
theorem fromServiceClientError_decode_witness :
    FromServiceClientError "op" "svc-\x7b\x7d" =
      some zeroCommonEdgexError.toGoError ∧
    FromServiceClientError "op" "svc-garbage" =
      some (NewCommonEdgexError "op" KindServerError "Client error"
        (some (.plain "json: cannot unmarshal value into CommonEdgexError"
          none))).toGoError :=
  ⟨fromServiceClientError_decode.2.1 "op" "svc-\x7b\x7d" "\x7b\x7d"
      zeroCommonEdgexError rfl rfl,
   fromServiceClientError_decode.2.2 "op" "svc-garbage" "garbage"
      "json: cannot unmarshal value into CommonEdgexError" rfl rfl⟩
